import Mathlib

/-!
Shallow embedding of `src/main.py` (an LVM state checker): the entity data
model, the per-entity health classifiers, the aggregation of issues and
warnings, the overall-status derivation, the tolerant numeric parser, the
thin-pool line filter, and the metadata-backup directory inspector.
Percentages and sizes are modelled as rationals; delimiter-separated raw
lines as `String`; the filesystem seen by the backup inspector as an
abstract per-directory state.
-/

/-- `LVMStatus` enum from `main.py`. -/
inductive LVMStatus where
  | HEALTHY
  | WARNING
  | CRITICAL
  | UNKNOWN
deriving DecidableEq, Repr

/-- Substring test: Python's `needle in haystack` on strings. -/
def containsSubstr (needle hay : List Char) : Bool :=
  needle.isPrefixOf hay ||
    match hay with
    | [] => false
    | _ :: t => containsSubstr needle t

/-- Python `needle in haystack` lifted to `String`. -/
def strIn (needle hay : String) : Bool :=
  containsSubstr needle.data hay.data

/-- Python `str.strip()`: drop whitespace from both ends. -/
def pyStrip (s : String) : String :=
  ⟨((s.data.dropWhile Char.isWhitespace).reverse.dropWhile Char.isWhitespace).reverse⟩

/-- Python `str.split(sep)` on a single-character separator, character-list
level: no collapsing of adjacent separators, the empty string yielding one
empty field. -/
def splitChar (sep : Char) : List Char → List (List Char)
  | [] => [[]]
  | c :: rest =>
    let r := splitChar sep rest
    if c = sep then [] :: r
    else
      match r with
      | [] => [[c]]
      | h :: t => (c :: h) :: t

/-- Python `str.split(sep)` lifted to `String`. -/
def pySplit (s : String) (sep : Char) : List String :=
  (splitChar sep s.data).map String.mk

/-- Python `str.lower()` (ASCII case mapping; every status text in this
program is ASCII). -/
def pyLower (s : String) : String :=
  ⟨s.data.map Char.toLower⟩

/-- Python `str.startswith(pre)`. -/
def pyStartsWith (s pre : String) : Bool :=
  pre.data.isPrefixOf s.data

/-- `PhysicalVolume` dataclass. -/
structure PhysicalVolume where
  name : String
  vg_name : String
  size_gb : ℚ
  free_gb : ℚ
  used_percent : ℚ
  status : String
  attributes : String
  dev_size : Option String := none
  uuid : Option String := none
deriving DecidableEq, Repr

/-- `PhysicalVolume.lvm_status` property: "unknown"/"missing" in the
lower-cased status text is CRITICAL, "inactive" is WARNING, else HEALTHY. -/
def PhysicalVolume.lvm_status (pv : PhysicalVolume) : LVMStatus :=
  if strIn "unknown" (pyLower pv.status) || strIn "missing" (pyLower pv.status) then
    LVMStatus.CRITICAL
  else if strIn "inactive" (pyLower pv.status) then
    LVMStatus.WARNING
  else
    LVMStatus.HEALTHY

/-- `VolumeGroup` dataclass. -/
structure VolumeGroup where
  name : String
  size_gb : ℚ
  free_gb : ℚ
  free_percent : ℚ
  pv_count : ℤ
  lv_count : ℤ
  attributes : String
  uuid : Option String := none
  extent_size : Option String := none
deriving DecidableEq, Repr

/-- `VolumeGroup.lvm_status` property, with the source's branch order kept:
`"p" in attrs` CRITICAL; `"x" in attrs` CRITICAL; `"p" not in attrs and
"x" not in attrs` HEALTHY; fallback WARNING. -/
def VolumeGroup.lvm_status (vg : VolumeGroup) : LVMStatus :=
  if strIn "p" vg.attributes then LVMStatus.CRITICAL
  else if strIn "x" vg.attributes then LVMStatus.CRITICAL
  else if !(strIn "p" vg.attributes) && !(strIn "x" vg.attributes) then LVMStatus.HEALTHY
  else LVMStatus.WARNING

/-- `LogicalVolume` dataclass. -/
structure LogicalVolume where
  name : String
  vg_name : String
  size_gb : ℚ
  lv_type : String
  pool : Option String
  origin : Option String
  status : String
  attributes : String
  uuid : Option String := none
  segments : Option String := none
deriving DecidableEq, Repr

/-- `LogicalVolume._check_snapshot_status`: the baseline policy always
reports HEALTHY. -/
def LogicalVolume.check_snapshot_status (_ : LogicalVolume) : LVMStatus :=
  LVMStatus.HEALTHY

/-- `LogicalVolume.lvm_status` property: snapshot hook first (returned only
when non-healthy), then missing `a` flag is CRITICAL, `m` flag is WARNING,
else HEALTHY. -/
def LogicalVolume.lvm_status (lv : LogicalVolume) : LVMStatus :=
  if strIn "s" lv.attributes ∧ lv.check_snapshot_status ≠ LVMStatus.HEALTHY then
    lv.check_snapshot_status
  else if !(strIn "a" lv.attributes) then LVMStatus.CRITICAL
  else if strIn "m" lv.attributes then LVMStatus.WARNING
  else LVMStatus.HEALTHY

/-- `ThinPool` dataclass. -/
structure ThinPool where
  name : String
  vg_name : String
  data_percent : ℚ
  metadata_percent : ℚ
  thin_count : ℤ
  lv_uuid : Option String := none
deriving DecidableEq, Repr

/-- `ThinPool.lvm_status` property: data > 90 CRITICAL, data > 80 WARNING,
then metadata > 90 CRITICAL, metadata > 80 WARNING, else HEALTHY. -/
def ThinPool.lvm_status (p : ThinPool) : LVMStatus :=
  if 90 < p.data_percent then LVMStatus.CRITICAL
  else if 80 < p.data_percent then LVMStatus.WARNING
  else if 90 < p.metadata_percent then LVMStatus.CRITICAL
  else if 80 < p.metadata_percent then LVMStatus.WARNING
  else LVMStatus.HEALTHY

/-- One entry of the `mount` listing kept by `check_lvm_mounts`. -/
structure MountEntry where
  device : String
  mount_point : String
  fs_type : String
deriving DecidableEq, Repr

/-- One entry of the `dmsetup status` listing kept by `check_dm_devices`. -/
structure DMDevice where
  name : String
  status : String
deriving DecidableEq, Repr

/-- What the filesystem can answer for one backup directory: absent, present
but not a directory, listing denied by permissions, listing failing with some
other error, or a successful listing. -/
inductive DirState where
  | missing
  | notDir
  | denied
  | errored
  | ok (entries : List (String × Bool))
deriving DecidableEq, Repr

/-- Per-directory record built by `check_lvm_metadata_backup`. -/
structure DirInfo where
  path : String
  name : String
  existsFlag : Bool
  accessible : Bool
  file_count : ℕ
  files : List String
deriving DecidableEq, Repr

/-- Aggregate record returned by `check_lvm_metadata_backup`. -/
structure BackupResult where
  directories : List DirInfo
  total_files : ℕ
  accessible : Bool
deriving DecidableEq, Repr

/-- `LVMHealthCheck` dataclass: the snapshot aggregate. -/
structure LVMHealthCheck where
  pvs : List PhysicalVolume
  vgs : List VolumeGroup
  lvs : List LogicalVolume
  thin_pools : List ThinPool
  mounts : List MountEntry
  dm_devices : List DMDevice
  metadata_backup : BackupResult
  timestamp : ℚ
  issues : List String
  warnings : List String
deriving DecidableEq, Repr

/-- The `critical_components` accumulator built inside
`LVMHealthCheck.overall_status`: names of CRITICAL entities, collected over
pvs, then vgs, then lvs, then thin pools. -/
def LVMHealthCheck.critical_components (hc : LVMHealthCheck) : List String :=
  ((hc.pvs.filter (fun pv => pv.lvm_status == LVMStatus.CRITICAL)).map
    (fun pv => "PV:" ++ pv.name)) ++
  ((hc.vgs.filter (fun vg => vg.lvm_status == LVMStatus.CRITICAL)).map
    (fun vg => "VG:" ++ vg.name)) ++
  ((hc.lvs.filter (fun lv => lv.lvm_status == LVMStatus.CRITICAL)).map
    (fun lv => "LV:" ++ lv.vg_name ++ "/" ++ lv.name)) ++
  ((hc.thin_pools.filter (fun p => p.lvm_status == LVMStatus.CRITICAL)).map
    (fun p => "Pool:" ++ p.vg_name ++ "/" ++ p.name))

/-- `LVMHealthCheck.overall_status` property: any critical component means
CRITICAL, else a non-empty warning list means WARNING, else HEALTHY. -/
def LVMHealthCheck.overall_status (hc : LVMHealthCheck) : LVMStatus :=
  if hc.critical_components ≠ [] then LVMStatus.CRITICAL
  else if hc.warnings ≠ [] then LVMStatus.WARNING
  else LVMStatus.HEALTHY

/-- Exit-code mapping at the end of `main`: CRITICAL exits 2, WARNING 1,
otherwise 0. -/
def exit_code (st : LVMStatus) : ℕ :=
  if st = LVMStatus.CRITICAL then 2
  else if st = LVMStatus.WARNING then 1
  else 0

/-- `value.replace(',', '.')` from `_safe_float`: the needle is a single
character, so the replacement is a per-character map. -/
def commaToDot (s : String) : String :=
  ⟨s.data.map (fun c => if c = ',' then '.' else c)⟩

/-- Value of a digit run, most significant first. -/
def digitsVal (ds : List Char) : ℕ :=
  ds.foldl (fun a c => a * 10 + (c.toNat - 48)) 0

/-- Python's `float` literal parse on an already-stripped string, as an exact
rational: optional sign, integer and/or fractional digits, optional exponent.
(The special spellings inf/nan and digit underscores are not modelled; no
input in this development uses them.) -/
def pyFloat? (s : String) : Option ℚ :=
  let cs := s.data
  let signed : Bool × List Char :=
    match cs with
    | '-' :: t => (true, t)
    | '+' :: t => (false, t)
    | _ => (false, cs)
  let ip := signed.2.takeWhile Char.isDigit
  let r1 := signed.2.dropWhile Char.isDigit
  let fpr : List Char × List Char :=
    match r1 with
    | '.' :: t => (t.takeWhile Char.isDigit, t.dropWhile Char.isDigit)
    | _ => ([], r1)
  if ip.isEmpty && fpr.1.isEmpty then none
  else
    let mant : ℚ := (digitsVal ip : ℚ) + (digitsVal fpr.1 : ℚ) / ((10 : ℚ) ^ fpr.1.length)
    let m := if signed.1 then -mant else mant
    match fpr.2 with
    | [] => some m
    | e :: t =>
      if e = 'e' ∨ e = 'E' then
        let esigned : Bool × List Char :=
          match t with
          | '-' :: u => (true, u)
          | '+' :: u => (false, u)
          | _ => (false, t)
        let ed := esigned.2.takeWhile Char.isDigit
        let er := esigned.2.dropWhile Char.isDigit
        if ed.isEmpty || !er.isEmpty then none
        else
          let ex : ℤ := if esigned.1 then -(digitsVal ed : ℤ) else (digitsVal ed : ℤ)
          some (m * (10 : ℚ) ^ ex)
      else none

/-- Python's `int` parse on a string: strips whitespace, optional sign,
digits. -/
def pyInt? (s : String) : Option ℤ :=
  let signed : Bool × List Char :=
    match (pyStrip s).data with
    | '-' :: t => (true, t)
    | '+' :: t => (false, t)
    | t => (false, t)
  if !signed.2.isEmpty && signed.2.all Char.isDigit then
    some (if signed.1 then -(digitsVal signed.2 : ℤ) else (digitsVal signed.2 : ℤ))
  else none

/-- `LVMStateChecker._safe_float`: replace commas by periods, strip, parse;
any failure (including a `None` input, whose `.replace` raises
`AttributeError`) yields the caller-supplied default. -/
def safe_float (value : Option String) (default : ℚ := 0) : ℚ :=
  match value with
  | none => default
  | some v =>
    let clean_value := pyStrip (commaToDot v)
    if clean_value ≠ "" then (pyFloat? clean_value).getD default
    else default

/-- `LVMStateChecker._safe_int`: parse a non-empty string as an integer,
falling back to the default on failure or empty/`None` input. -/
def safe_int (value : Option String) (default : ℤ := 0) : ℤ :=
  match value with
  | none => default
  | some v => if v ≠ "" then (pyInt? v).getD default else default

/-- Python's `f"{x:.1f}"` rendering used by the report templates, on exact
rationals (rounding at the tie is a modelling choice; no claim inspects it). -/
def fmt1 (q : ℚ) : String :=
  let n : ℤ := round (q * 10)
  let m := n.natAbs
  (if n < 0 then "-" else "") ++ toString (m / 10) ++ "." ++ toString (m % 10)

/-- Loop body of `generate_health_report` over physical volumes. -/
def pv_report_step (acc : List String × List String) (pv : PhysicalVolume) :
    List String × List String :=
  if pv.lvm_status = LVMStatus.CRITICAL then
    (acc.1 ++ ["Critical PV: " ++ pv.name ++ " (" ++ pv.status ++ ")"], acc.2)
  else if pv.lvm_status = LVMStatus.WARNING then
    (acc.1, acc.2 ++ ["Warning PV: " ++ pv.name ++ " (" ++ pv.status ++ ")"])
  else acc

/-- Loop body of `generate_health_report` over volume groups: flag-critical
first, then the aggregation-only free-space thresholds at 5% and 10%. -/
def vg_report_step (acc : List String × List String) (vg : VolumeGroup) :
    List String × List String :=
  if vg.lvm_status = LVMStatus.CRITICAL then
    (acc.1 ++ ["Critical VG: " ++ vg.name ++ " (partial/missing)"], acc.2)
  else if vg.free_percent < 5 then
    (acc.1 ++ ["Critical VG: " ++ vg.name ++ " (only " ++ fmt1 vg.free_percent ++ "% free)"],
     acc.2)
  else if vg.free_percent < 10 then
    (acc.1,
     acc.2 ++ ["Warning VG: " ++ vg.name ++ " (low free space: " ++ fmt1 vg.free_percent ++ "%)"])
  else acc

/-- Loop body of `generate_health_report` over logical volumes. -/
def lv_report_step (acc : List String × List String) (lv : LogicalVolume) :
    List String × List String :=
  if lv.lvm_status = LVMStatus.CRITICAL then
    (acc.1 ++ ["Critical LV: " ++ lv.vg_name ++ "/" ++ lv.name ++ " (inactive)"], acc.2)
  else acc

/-- Loop body of `generate_health_report` over thin pools. -/
def pool_report_step (acc : List String × List String) (p : ThinPool) :
    List String × List String :=
  if p.lvm_status = LVMStatus.CRITICAL then
    (acc.1 ++ ["Critical Thin Pool: " ++ p.vg_name ++ "/" ++ p.name ++
      " (over " ++ fmt1 p.data_percent ++ "% used)"], acc.2)
  else if p.lvm_status = LVMStatus.WARNING then
    (acc.1, acc.2 ++ ["Warning Thin Pool: " ++ p.vg_name ++ "/" ++ p.name ++
      " (" ++ fmt1 p.data_percent ++ "% used)"])
  else acc

/-- `LVMStateChecker.generate_health_report`: accumulate the issue and
warning lists over pvs, vgs, lvs and thin pools in that order. -/
def generate_health_report (pvs : List PhysicalVolume) (vgs : List VolumeGroup)
    (lvs : List LogicalVolume) (thin_pools : List ThinPool) :
    List String × List String :=
  thin_pools.foldl pool_report_step
    (lvs.foldl lv_report_step
      (vgs.foldl vg_report_step
        (pvs.foldl pv_report_step ([], []))))

/-- The `lv_type` derivation chain in `check_logical_volumes`: first matching
attribute flag wins, in the order t, s, V, m, r, c; default NORMAL. -/
def lv_type_of (attributes : String) : String :=
  if strIn "t" attributes then "THIN"
  else if strIn "s" attributes then "SNAPSHOT"
  else if strIn "V" attributes then "VIRTUAL"
  else if strIn "m" attributes then "MIRRORED"
  else if strIn "r" attributes then "RAID"
  else if strIn "c" attributes then "CACHE"
  else "NORMAL"

/-- The `status` derivation in `check_logical_volumes`: ACTIVE/INACTIVE from
the `a` flag, overridden to SNAPSHOT when `s` is present. -/
def lv_status_of (attributes : String) : String :=
  if strIn "s" attributes then "SNAPSHOT"
  else if strIn "a" attributes then "ACTIVE"
  else "INACTIVE"

/-- Per-line body of `check_logical_volumes`: skip blank lines, split on the
`|` separator, require at least 4 fields, map empty trimmed pool/origin
fields to absent. -/
def parse_lv_line (line : String) : Option LogicalVolume :=
  if pyStrip line = "" then none
  else
    let fields := pySplit (pyStrip line) '|'
    if 4 ≤ fields.length then
      let attributes := pyStrip (fields.getD 3 "")
      some {
        name := pyStrip (fields.getD 0 "")
        vg_name := pyStrip (fields.getD 1 "")
        size_gb := safe_float (some (fields.getD 2 "")) 0
        lv_type := lv_type_of attributes
        pool := match fields[4]? with
          | some f => if pyStrip f ≠ "" then some (pyStrip f) else none
          | none => none
        origin := match fields[5]? with
          | some f => if pyStrip f ≠ "" then some (pyStrip f) else none
          | none => none
        status := lv_status_of attributes
        attributes := attributes
        uuid := (fields[6]?).map pyStrip
        segments := (fields[7]?).map pyStrip }
    else none

/-- Per-line body of `check_thin_pools`: skip blank lines, split on `|`,
and keep the record when there are at least 5 fields AND the character `t`
occurs anywhere in the raw line (`"t" in line`). -/
def parse_thin_pool_line (line : String) : Option ThinPool :=
  if pyStrip line = "" then none
  else
    let fields := pySplit (pyStrip line) '|'
    if 5 ≤ fields.length ∧ strIn "t" line then
      some {
        name := pyStrip (fields.getD 0 "")
        vg_name := pyStrip (fields.getD 1 "")
        data_percent := safe_float (some (fields.getD 2 "")) 0
        metadata_percent := safe_float (some (fields.getD 3 "")) 0
        thin_count := safe_int (some (fields.getD 4 "")) 0
        lv_uuid := (fields[5]?).map pyStrip }
    else none

/-- Entries visible to the inspector: a listing for a readable directory,
nothing otherwise. Each entry is a file name paired with its regular-file
flag. -/
def entriesOf : DirState → List (String × Bool)
  | DirState.ok es => es
  | _ => []

/-- Whether listing the directory raises `PermissionError`. -/
def isDenied : DirState → Bool
  | DirState.denied => true
  | _ => false

/-- Per-directory body of `check_lvm_metadata_backup`: existence from
`path.exists() and path.is_dir()`, the sorted ten-name sample of non-hidden
regular files on success, `accessible = False` when listing fails. -/
def inspect_backup_dir (st : DirState) (p n : String) : DirInfo :=
  match st with
  | DirState.missing => ⟨p, n, false, false, 0, []⟩
  | DirState.notDir => ⟨p, n, false, false, 0, []⟩
  | DirState.denied => ⟨p, n, true, false, 0, []⟩
  | DirState.errored => ⟨p, n, true, false, 0, []⟩
  | DirState.ok es =>
      ⟨p, n, true, true, es.length,
        (List.insertionSort (· ≤ ·)
          ((es.filter (fun e => e.2 && !(pyStartsWith e.1 "."))).map Prod.fst)).take 10⟩

/-- The three well-known backup directories. -/
def backup_dirs : List (String × String) :=
  [("/etc/lvm/backup", "backup"), ("/etc/lvm/archive", "archive"),
   ("/var/lib/lvm", "var_lib")]

/-- `LVMStateChecker.check_lvm_metadata_backup` over an abstract filesystem:
fold over the three directories, accumulating the per-directory records, the
total entry count, and the aggregate accessibility flag (falsified only by a
permission error). -/
def check_lvm_metadata_backup (fs : String → DirState) : BackupResult :=
  backup_dirs.foldl
    (fun acc pr =>
      let st := fs pr.1
      { directories := acc.directories ++ [inspect_backup_dir st pr.1 pr.2],
        total_files := acc.total_files + (entriesOf st).length,
        accessible := acc.accessible && !(isDenied st) })
    ⟨[], 0, true⟩

/-- A volume group with clean attribute flags and 3% free space. -/
def vgLow : VolumeGroup :=
  ⟨"vg0", 100, 3, 3, 1, 1, "wz--n-", none, none⟩

/-- A volume group with clean attribute flags and 4.9% free space. -/
def vgAlmostFull : VolumeGroup :=
  ⟨"vg0", 100, 49/10, 49/10, 1, 1, "wz--n-", none, none⟩

/-- Snapshot of a system whose only entity is `vgLow`, with the issue and
warning lists produced by `generate_health_report` for it, as `run_full_check`
builds them. -/
def hcLow : LVMHealthCheck :=
  ⟨[], [vgLow], [], [], [], [], ⟨[], 0, true⟩, 0,
   (generate_health_report [] [vgLow] [] []).1,
   (generate_health_report [] [vgLow] [] []).2⟩

/-- An entity-free snapshot with an empty warning list. -/
def hcNoWarn : LVMHealthCheck :=
  ⟨[], [], [], [], [], [], ⟨[], 0, true⟩, 0, [], []⟩

/-- An entity-free snapshot with one warning string. -/
def hcOneWarn : LVMHealthCheck :=
  ⟨[], [], [], [], [], [], ⟨[], 0, true⟩, 0, [], ["w"]⟩

/-- An entity-free snapshot with a different warning string. -/
def hcOtherWarn : LVMHealthCheck :=
  ⟨[], [], [], [], [], [], ⟨[], 0, true⟩, 0, [], ["v"]⟩

-- Helper: membership characterisation of the critical scan.

/-- The critical-component list is empty exactly when no entity of the
snapshot classifies as CRITICAL. -/
theorem critical_components_eq_nil_iff (hc : LVMHealthCheck) :
    hc.critical_components = [] ↔
      ((∀ pv ∈ hc.pvs, pv.lvm_status ≠ LVMStatus.CRITICAL) ∧
       (∀ vg ∈ hc.vgs, vg.lvm_status ≠ LVMStatus.CRITICAL) ∧
       (∀ lv ∈ hc.lvs, lv.lvm_status ≠ LVMStatus.CRITICAL) ∧
       (∀ p ∈ hc.thin_pools, p.lvm_status ≠ LVMStatus.CRITICAL)) := by
  simp [LVMHealthCheck.critical_components, List.append_eq_nil,
    List.map_eq_nil_iff, List.filter_eq_nil_iff]

/-- The overall status is CRITICAL exactly when some entity of the snapshot
classifies as CRITICAL. -/
theorem overall_status_eq_critical_iff (hc : LVMHealthCheck) :
    hc.overall_status = LVMStatus.CRITICAL ↔
      ((∃ pv ∈ hc.pvs, pv.lvm_status = LVMStatus.CRITICAL) ∨
       (∃ vg ∈ hc.vgs, vg.lvm_status = LVMStatus.CRITICAL) ∨
       (∃ lv ∈ hc.lvs, lv.lvm_status = LVMStatus.CRITICAL) ∨
       (∃ p ∈ hc.thin_pools, p.lvm_status = LVMStatus.CRITICAL)) := by
  unfold LVMHealthCheck.overall_status
  by_cases hcrit : hc.critical_components = []
  · rw [if_neg (by simp [hcrit])]
    have hall := (critical_components_eq_nil_iff hc).mp hcrit
    have hdisj : ¬((∃ pv ∈ hc.pvs, pv.lvm_status = LVMStatus.CRITICAL) ∨
        (∃ vg ∈ hc.vgs, vg.lvm_status = LVMStatus.CRITICAL) ∨
        (∃ lv ∈ hc.lvs, lv.lvm_status = LVMStatus.CRITICAL) ∨
        (∃ p ∈ hc.thin_pools, p.lvm_status = LVMStatus.CRITICAL)) := by
      rintro (⟨x, hm, hs⟩ | ⟨x, hm, hs⟩ | ⟨x, hm, hs⟩ | ⟨x, hm, hs⟩)
      · exact hall.1 x hm hs
      · exact hall.2.1 x hm hs
      · exact hall.2.2.1 x hm hs
      · exact hall.2.2.2 x hm hs
    by_cases hw : hc.warnings ≠ []
    · rw [if_pos hw]
      simp only [iff_false_intro hdisj, iff_false]
      intro hcontra
      exact LVMStatus.noConfusion hcontra
    · rw [if_neg hw]
      simp only [iff_false_intro hdisj, iff_false]
      intro hcontra
      exact LVMStatus.noConfusion hcontra
  · rw [if_pos hcrit]
    simp only [true_iff]
    by_contra hno
    push_neg at hno
    exact hcrit ((critical_components_eq_nil_iff hc).mpr
      ⟨hno.1, hno.2.1, hno.2.2.1, hno.2.2.2⟩)

/-- When no component is critical, the overall status is decided by the
warning list alone. -/
theorem overall_status_eq_ite (hc : LVMHealthCheck) (h : hc.critical_components = []) :
    hc.overall_status = if hc.warnings ≠ [] then LVMStatus.WARNING else LVMStatus.HEALTHY := by
  unfold LVMHealthCheck.overall_status
  rw [if_neg (not_not_intro h)]

/-- A non-critical overall status means the critical scan found nothing. -/
theorem critical_components_eq_nil_of_ne (hc : LVMHealthCheck)
    (h : hc.overall_status ≠ LVMStatus.CRITICAL) : hc.critical_components = [] := by
  by_contra hne
  apply h
  unfold LVMHealthCheck.overall_status
  rw [if_pos hne]

/-- A critical entity in a list is a CRITICAL value in the list of mapped
statuses. -/
theorem exists_crit_iff_mem_map {α : Type} (l : List α) (f : α → LVMStatus) :
    (∃ x ∈ l, f x = LVMStatus.CRITICAL) ↔ LVMStatus.CRITICAL ∈ l.map f := by
  simp [List.mem_map, eq_comm]

/-- Replacing commas by periods is idempotent. -/
theorem commaToDot_idem (s : String) : commaToDot (commaToDot s) = commaToDot s := by
  have hf : ((fun c => if c = ',' then '.' else c) ∘ (fun c => if c = ',' then '.' else c)) =
      (fun c => if c = ',' then '.' else c) := by
    funext c
    by_cases h : c = ','
    · subst h; rfl
    · simp [h]
  show String.mk _ = String.mk _
  rw [commaToDot, List.map_map, hf]

/-- C1: the derived overall status of a snapshot is CRITICAL exactly when at
least one physical volume, volume group, logical volume or thin pool of the
snapshot has classified status CRITICAL — the warning list plays no role in
that direction of the verdict. -/
theorem C1_overall_critical_iff (hc : LVMHealthCheck) :
    hc.overall_status = LVMStatus.CRITICAL ↔
      ((∃ pv ∈ hc.pvs, pv.lvm_status = LVMStatus.CRITICAL) ∨
       (∃ vg ∈ hc.vgs, vg.lvm_status = LVMStatus.CRITICAL) ∨
       (∃ lv ∈ hc.lvs, lv.lvm_status = LVMStatus.CRITICAL) ∨
       (∃ p ∈ hc.thin_pools, p.lvm_status = LVMStatus.CRITICAL)) :=
  overall_status_eq_critical_iff hc

/-- C2 counterexample: two snapshots whose entity lists (hence entity
statuses) are identical but whose warning lists differ get different overall
statuses, so the overall verdict is not a function of entity statuses
alone. -/
theorem C2_counterexample :
    hcNoWarn.pvs.map PhysicalVolume.lvm_status = hcOneWarn.pvs.map PhysicalVolume.lvm_status ∧
    hcNoWarn.vgs.map VolumeGroup.lvm_status = hcOneWarn.vgs.map VolumeGroup.lvm_status ∧
    hcNoWarn.lvs.map LogicalVolume.lvm_status = hcOneWarn.lvs.map LogicalVolume.lvm_status ∧
    hcNoWarn.thin_pools.map ThinPool.lvm_status = hcOneWarn.thin_pools.map ThinPool.lvm_status ∧
    hcNoWarn.overall_status = LVMStatus.HEALTHY ∧
    hcOneWarn.overall_status = LVMStatus.WARNING ∧
    hcNoWarn.overall_status ≠ hcOneWarn.overall_status := by
  refine ⟨rfl, rfl, rfl, rfl, by decide, by decide, by decide⟩

/-- C2 amended: whether the overall verdict is CRITICAL is a function of the
entities' classified statuses alone; below CRITICAL the verdict additionally
depends on whether the warning list is empty, so two snapshots with the same
entity statuses agree on the overall status whenever their warning lists are
both empty or both non-empty. -/
theorem C2_amended (a b : LVMHealthCheck)
    (hpv : a.pvs.map PhysicalVolume.lvm_status = b.pvs.map PhysicalVolume.lvm_status)
    (hvg : a.vgs.map VolumeGroup.lvm_status = b.vgs.map VolumeGroup.lvm_status)
    (hlv : a.lvs.map LogicalVolume.lvm_status = b.lvs.map LogicalVolume.lvm_status)
    (hpool : a.thin_pools.map ThinPool.lvm_status = b.thin_pools.map ThinPool.lvm_status) :
    (a.overall_status = LVMStatus.CRITICAL ↔ b.overall_status = LVMStatus.CRITICAL) ∧
    ((a.warnings = [] ↔ b.warnings = []) → a.overall_status = b.overall_status) := by
  have hcrit : a.overall_status = LVMStatus.CRITICAL ↔ b.overall_status = LVMStatus.CRITICAL := by
    rw [overall_status_eq_critical_iff, overall_status_eq_critical_iff]
    simp only [exists_crit_iff_mem_map]
    rw [hpv, hvg, hlv, hpool]
  refine ⟨hcrit, ?_⟩
  intro hw
  by_cases hac : a.overall_status = LVMStatus.CRITICAL
  · rw [hac, hcrit.mp hac]
  · have hbc : b.overall_status ≠ LVMStatus.CRITICAL := fun hx => hac (hcrit.mpr hx)
    rw [overall_status_eq_ite a (critical_components_eq_nil_of_ne a hac),
        overall_status_eq_ite b (critical_components_eq_nil_of_ne b hbc)]
    by_cases hwa : a.warnings = []
    · rw [if_neg (not_not_intro hwa), if_neg (not_not_intro (hw.mp hwa))]
    · rw [if_pos hwa, if_pos (fun hx => hwa (hw.mpr hx))]

/-- C2 witness: the amended statement applied to the two concrete entity-free
snapshots whose warning lists are both non-empty. -/
theorem C2_amended_witness : hcOneWarn.overall_status = hcOtherWarn.overall_status :=
  (C2_amended hcOneWarn hcOtherWarn rfl rfl rfl rfl).2 (by decide)

/-- C3 counterexample: the thin pool with data-usage 85 (not above the
critical threshold 90) and metadata-usage 91 classifies WARNING, not
CRITICAL — the data-usage warning tier wins before metadata is consulted. -/
theorem C3_counterexample :
    (85 : ℚ) ≤ 90 ∧
    ThinPool.lvm_status ⟨"pool0", "vg0", 85, 91, 0, none⟩ = LVMStatus.WARNING ∧
    ThinPool.lvm_status ⟨"pool0", "vg0", 85, 91, 0, none⟩ ≠ LVMStatus.CRITICAL := by
  refine ⟨by norm_num, by decide, by decide⟩

/-- C3 amended: HEALTHY when both usages are at most 80; WARNING at
data-usage 81; CRITICAL at data-usage 91; and the metadata thresholds act
only when data-usage is at most 80 (not merely below the critical 90):
then metadata-usage 91 is CRITICAL and metadata-usage 81 is WARNING. -/
theorem C3_amended (p : ThinPool) :
    (p.data_percent ≤ 80 → p.metadata_percent ≤ 80 → p.lvm_status = LVMStatus.HEALTHY) ∧
    (p.data_percent = 81 → p.lvm_status = LVMStatus.WARNING) ∧
    (p.data_percent = 91 → p.lvm_status = LVMStatus.CRITICAL) ∧
    (p.data_percent ≤ 80 → p.metadata_percent = 91 → p.lvm_status = LVMStatus.CRITICAL) ∧
    (p.data_percent ≤ 80 → p.metadata_percent = 81 → p.lvm_status = LVMStatus.WARNING) := by
  unfold ThinPool.lvm_status
  refine ⟨?_, ?_, ?_, ?_, ?_⟩ <;> intros <;> split_ifs <;>
    first
    | rfl
    | (exfalso; linarith)

/-- C3 witness: the amended statement applied to a concrete pool with
data-usage 81. -/
theorem C3_amended_witness :
    ThinPool.lvm_status ⟨"pool0", "vg0", 81, 50, 0, none⟩ = LVMStatus.WARNING :=
  (C3_amended ⟨"pool0", "vg0", 81, 50, 0, none⟩).2.1 rfl

/-- C4: for a volume group whose flag-derived classification is HEALTHY, the
aggregator emits exactly one issue string (and no warning) at free-percentage
4.9, exactly one warning string (and no issue) at 7, and neither at 15; the
classified status of the group itself stays HEALTHY throughout, since it is a
pure function of the group's fields. -/
theorem C4_vg_free_space_rules (vg : VolumeGroup) (h : vg.lvm_status = LVMStatus.HEALTHY) :
    (vg.free_percent = 49/10 →
      generate_health_report [] [vg] [] [] =
        (["Critical VG: " ++ vg.name ++ " (only " ++ fmt1 vg.free_percent ++ "% free)"], [])) ∧
    (vg.free_percent = 7 →
      generate_health_report [] [vg] [] [] =
        ([], ["Warning VG: " ++ vg.name ++ " (low free space: " ++ fmt1 vg.free_percent ++ "%)"])) ∧
    (vg.free_percent = 15 → generate_health_report [] [vg] [] [] = ([], [])) ∧
    vg.lvm_status = LVMStatus.HEALTHY := by
  have hnc : ¬(vg.lvm_status = LVMStatus.CRITICAL) := by
    rw [h]; intro hx; cases hx
  refine ⟨?_, ?_, ?_, h⟩ <;> intro hfp <;>
    simp only [generate_health_report, List.foldl_cons, List.foldl_nil, vg_report_step, hnc,
      if_false, hfp] <;>
    norm_num

/-- C4 witness: the 4.9%-free concrete volume group `vgAlmostFull` produces
the issue string and no warning. -/
theorem C4_witness :
    generate_health_report [] [vgAlmostFull] [] [] =
      (["Critical VG: " ++ vgAlmostFull.name ++ " (only " ++ fmt1 vgAlmostFull.free_percent ++
        "% free)"], []) :=
  (C4_vg_free_space_rules vgAlmostFull (by decide)).1 rfl

/-- The comma-to-period replacement makes the parse of a comma-separated
numeral agree with the parse of its period spelling. -/
theorem safe_float_comma_eq (s : String) (d : ℚ) :
    safe_float (some s) d = safe_float (some (commaToDot s)) d := by
  simp only [safe_float, commaToDot_idem]

/-- C5: the safe-float parser gives the same value for a comma-decimal string
as for its period spelling; it returns the caller-supplied default whenever
the cleaned string does not parse, and on empty or non-string (`None`)
input; being a total function, it never raises to the caller. -/
theorem C5_safe_float_total (d : ℚ) :
    (∀ s : String, safe_float (some s) d = safe_float (some (commaToDot s)) d) ∧
    (∀ s : String, pyFloat? (pyStrip (commaToDot s)) = none → safe_float (some s) d = d) ∧
    safe_float none d = d ∧
    safe_float (some "") d = d ∧
    safe_float (some "3,5") d = safe_float (some "3.5") d := by
  refine ⟨fun s => safe_float_comma_eq s d, ?_, rfl, rfl, safe_float_comma_eq "3,5" d⟩
  intro s h
  simp only [safe_float]
  split
  · rw [h]; rfl
  · rfl

/-- C5 witness: unparsable input falls back to the supplied default. -/
theorem C5_witness : safe_float (some "abc") 7 = 7 :=
  (C5_safe_float_total 7).2.1 "abc" (by decide)

/-- C6: the derived logical-volume type tag is decided by the first matching
flag in the order t, s, V, m, r, c with NORMAL as the default — in
particular flags holding both `t` and `s` give THIN — and the scenario line
with flags `twi-aotz--` and pool field `thinpool0` parses to lv_type THIN
with pool "thinpool0". -/
theorem C6_lv_type_priority :
    (∀ attrs : String,
      (lv_type_of attrs = "THIN" ↔ strIn "t" attrs = true) ∧
      (lv_type_of attrs = "SNAPSHOT" ↔
        (strIn "t" attrs = false ∧ strIn "s" attrs = true)) ∧
      (lv_type_of attrs = "VIRTUAL" ↔
        (strIn "t" attrs = false ∧ strIn "s" attrs = false ∧ strIn "V" attrs = true)) ∧
      (lv_type_of attrs = "MIRRORED" ↔
        (strIn "t" attrs = false ∧ strIn "s" attrs = false ∧ strIn "V" attrs = false ∧
         strIn "m" attrs = true)) ∧
      (lv_type_of attrs = "RAID" ↔
        (strIn "t" attrs = false ∧ strIn "s" attrs = false ∧ strIn "V" attrs = false ∧
         strIn "m" attrs = false ∧ strIn "r" attrs = true)) ∧
      (lv_type_of attrs = "CACHE" ↔
        (strIn "t" attrs = false ∧ strIn "s" attrs = false ∧ strIn "V" attrs = false ∧
         strIn "m" attrs = false ∧ strIn "r" attrs = false ∧ strIn "c" attrs = true)) ∧
      (lv_type_of attrs = "NORMAL" ↔
        (strIn "t" attrs = false ∧ strIn "s" attrs = false ∧ strIn "V" attrs = false ∧
         strIn "m" attrs = false ∧ strIn "r" attrs = false ∧ strIn "c" attrs = false))) ∧
    (parse_lv_line "lv0|vg0|10.00|twi-aotz--|thinpool0|").map
      (fun lv => (lv.lv_type, lv.pool)) = some ("THIN", some "thinpool0") := by
  constructor
  · intro attrs
    unfold lv_type_of
    split_ifs with h1 h2 h3 h4 h5 h6 <;> simp_all
  · decide

/-- C7: the volume-group classifier is CRITICAL exactly when the flags hold
`p` or `x`, HEALTHY exactly when they hold neither, and consequently never
WARNING: the conservative fallback branch is unreachable. -/
theorem C7_vg_classifier (vg : VolumeGroup) :
    (vg.lvm_status = LVMStatus.CRITICAL ↔
      (strIn "p" vg.attributes = true ∨ strIn "x" vg.attributes = true)) ∧
    (vg.lvm_status = LVMStatus.HEALTHY ↔
      (strIn "p" vg.attributes = false ∧ strIn "x" vg.attributes = false)) ∧
    (vg.lvm_status = LVMStatus.CRITICAL ∨ vg.lvm_status = LVMStatus.HEALTHY) ∧
    vg.lvm_status ≠ LVMStatus.WARNING := by
  unfold VolumeGroup.lvm_status
  by_cases hp : strIn "p" vg.attributes = true <;>
    by_cases hx : strIn "x" vg.attributes = true <;>
      simp_all

/-- C8: the aggregate accessibility flag of the metadata-backup inspection is
false exactly when one of the three well-known directories raises a
permission error on listing; a missing directory is recorded with
exists=false and is not counted as denied; every filename sample holds at
most ten names, sorted lexicographically, all naming non-hidden regular
files of the listed directory. The inspector is a total function of the
filesystem state: no filesystem error propagates. -/
theorem C8_metadata_backup_inspector (fs : String → DirState) (st : DirState) (p n : String) :
    ((check_lvm_metadata_backup fs).accessible = false ↔
      (isDenied (fs "/etc/lvm/backup") = true ∨ isDenied (fs "/etc/lvm/archive") = true ∨
       isDenied (fs "/var/lib/lvm") = true)) ∧
    (st = DirState.missing → (inspect_backup_dir st p n).existsFlag = false ∧
      isDenied st = false) ∧
    (inspect_backup_dir st p n).files.length ≤ 10 ∧
    List.Sorted (· ≤ ·) (inspect_backup_dir st p n).files ∧
    (∀ f ∈ (inspect_backup_dir st p n).files,
      pyStartsWith f "." = false ∧ ∃ e ∈ entriesOf st, e.2 = true ∧ e.1 = f) := by
  refine ⟨?_, ?_, ?_, ?_, ?_⟩
  · simp only [check_lvm_metadata_backup, backup_dirs, List.foldl_cons, List.foldl_nil]
    cases hd1 : isDenied (fs "/etc/lvm/backup") <;>
      cases hd2 : isDenied (fs "/etc/lvm/archive") <;>
        cases hd3 : isDenied (fs "/var/lib/lvm") <;>
          simp [hd1, hd2, hd3]
  · rintro rfl
    exact ⟨rfl, rfl⟩
  · cases st with
    | ok es =>
        show ((List.insertionSort (· ≤ ·)
          ((es.filter (fun e => e.2 && !(pyStartsWith e.1 "."))).map Prod.fst)).take 10).length ≤ 10
        rw [List.length_take]
        exact min_le_left _ _
    | missing => exact Nat.zero_le 10
    | notDir => exact Nat.zero_le 10
    | denied => exact Nat.zero_le 10
    | errored => exact Nat.zero_le 10
  · cases st with
    | ok es =>
        exact List.Pairwise.sublist (List.take_sublist _ _) (List.sorted_insertionSort _ _)
    | missing => exact List.sorted_nil
    | notDir => exact List.sorted_nil
    | denied => exact List.sorted_nil
    | errored => exact List.sorted_nil
  · intro f hf
    cases st with
    | ok es =>
        simp only [inspect_backup_dir] at hf
        have hmem : f ∈ List.insertionSort (· ≤ ·)
            ((es.filter (fun e => e.2 && !(pyStartsWith e.1 "."))).map Prod.fst) :=
          List.take_subset _ _ hf
        rw [List.mem_insertionSort] at hmem
        obtain ⟨e, he, hef⟩ := List.mem_map.mp hmem
        have hfe := List.mem_filter.mp he
        have hcond : e.2 = true ∧ pyStartsWith e.1 "." = false := by
          have hb := hfe.2
          simp only [Bool.and_eq_true, Bool.not_eq_true'] at hb
          exact hb
        refine ⟨?_, ⟨e, hfe.1, hcond.1, hef⟩⟩
        rw [← hef]
        exact hcond.2
    | missing => simp [inspect_backup_dir] at hf
    | notDir => simp [inspect_backup_dir] at hf
    | denied => simp [inspect_backup_dir] at hf
    | errored => simp [inspect_backup_dir] at hf

/-- C8 witness: a filesystem with every directory missing, inspected at the
backup path. -/
theorem C8_witness :
    (inspect_backup_dir DirState.missing "/etc/lvm/backup" "backup").existsFlag = false ∧
    isDenied DirState.missing = false :=
  (C8_metadata_backup_inspector (fun _ => DirState.missing) DirState.missing
    "/etc/lvm/backup" "backup").2.1 rfl

/-- C9: a thin-pool listing line with at least five fields produces a record
exactly when the character `t` occurs anywhere in the whole raw line; in
particular the line of a non-thin volume named `test_lv` is included, and a
line with no `t` anywhere is not. -/
theorem C9_thin_pool_line_filter :
    (∀ line : String, 5 ≤ (pySplit (pyStrip line) '|').length →
      ((parse_thin_pool_line line).isSome = true ↔ strIn "t" line = true)) ∧
    (parse_thin_pool_line "test_lv|vg0|10.0|5.0|0|abc").isSome = true ∧
    parse_thin_pool_line "mylv|vg0|50.0|10.0|0|abc" = none := by
  refine ⟨?_, by decide, by decide⟩
  intro line h
  unfold parse_thin_pool_line
  by_cases hb : pyStrip line = ""
  · exfalso
    rw [hb] at h
    simp [pySplit, splitChar] at h
  · rw [if_neg hb]
    dsimp only
    by_cases ht : strIn "t" line = true
    · rw [if_pos ⟨h, ht⟩]
      simp [ht]
    · rw [if_neg (fun hc => ht hc.2)]
      simp [ht]

/-- C9 witness: the concrete non-thin line whose name holds a `t` is
included. -/
theorem C9_witness : (parse_thin_pool_line "test_lv|vg0|10.0|5.0|0|abc").isSome = true :=
  (C9_thin_pool_line_filter.1 "test_lv|vg0|10.0|5.0|0|abc" (by decide)).mpr (by decide)

/-- C10: the snapshot holding only the clean volume group with 3% free space
has a non-empty issue list (from the aggregation-only low-free-space rule)
and an empty warning list, yet its derived overall status is HEALTHY and the
process exit code is 0. -/
theorem C10_issue_without_critical :
    hcLow.issues ≠ [] ∧
    hcLow.warnings = [] ∧
    hcLow.overall_status = LVMStatus.HEALTHY ∧
    exit_code hcLow.overall_status = 0 ∧
    vgLow.free_percent < 5 ∧
    vgLow.lvm_status = LVMStatus.HEALTHY := by
  refine ⟨by decide, by decide, by decide, by decide, by decide, by decide⟩
